import Mathlib

/-!
bio_ik: `ParameterLoader` (include/bio_ik/util/parameter_loader.hpp)

A shallow embedding of the `ParameterLoader` callable.  The loader is a thin
wrapper around a host node's parameter store: it asks whether a name is
declared, declares it with a default when it is not, and then reads it back.

The host node (`rclcpp::Node`) is external to the repository.  It is taken as
a parameter: a record of the three operations the loader calls, acting on an
arbitrary store state `σ`.  Exceptions thrown by the node are values of
`Except String _`, the string being `ex.what()`.  Every call the loader makes
on the node is recorded, in order, in the `calls` field of the outcome, so
that statements such as "declare is never invoked" can be expressed.
-/

set_option autoImplicit false

namespace BioIk

/-! ## Values, descriptors, results -/

/-- Tags of `rcl_interfaces/msg/parameter_type.hpp`, in the order of their
numeric codes 0 to 9. -/
inductive ParameterType where
  | PARAMETER_NOT_SET
  | PARAMETER_BOOL
  | PARAMETER_INTEGER
  | PARAMETER_DOUBLE
  | PARAMETER_STRING
  | PARAMETER_BYTE_ARRAY
  | PARAMETER_BOOL_ARRAY
  | PARAMETER_INTEGER_ARRAY
  | PARAMETER_DOUBLE_ARRAY
  | PARAMETER_STRING_ARRAY
  deriving DecidableEq, Repr

/-- A floating-point payload, kept as its IEEE-754 binary64 bit pattern.  The
loader only ever copies such a value, it never computes with it. -/
structure Double where
  bits : Nat
  deriving DecidableEq, Repr

/-- The double `5.0`. -/
def Double.five : Double := ⟨0x4014000000000000⟩

/-- The double `1.0`. -/
def Double.one : Double := ⟨0x3FF0000000000000⟩

/-- Modelled from the spec: `rclcpp::ParameterValue`, whose declaration is not
in the repository.  "A discriminated value of one supported scalar/array type:
boolean, integer, floating point, text, and arrays thereof", or not set. -/
inductive ParameterValue where
  | not_set
  | bool (value : Bool)
  | integer (value : Int)
  | double (value : Double)
  | string (value : String)
  | byte_array (value : List (Fin 256))
  | bool_array (value : List Bool)
  | integer_array (value : List Int)
  | double_array (value : List Double)
  | string_array (value : List String)
  deriving DecidableEq, Repr

/-- The tag of a value: `ParameterValue::get_type()`. -/
def ParameterValue.get_type : ParameterValue → ParameterType
  | .not_set => .PARAMETER_NOT_SET
  | .bool _ => .PARAMETER_BOOL
  | .integer _ => .PARAMETER_INTEGER
  | .double _ => .PARAMETER_DOUBLE
  | .string _ => .PARAMETER_STRING
  | .byte_array _ => .PARAMETER_BYTE_ARRAY
  | .bool_array _ => .PARAMETER_BOOL_ARRAY
  | .integer_array _ => .PARAMETER_INTEGER_ARRAY
  | .double_array _ => .PARAMETER_DOUBLE_ARRAY
  | .string_array _ => .PARAMETER_STRING_ARRAY

/-- Printed name of a tag, as used in the text of a type-mismatch error. -/
def ParameterType.to_string : ParameterType → String
  | .PARAMETER_NOT_SET => "not set"
  | .PARAMETER_BOOL => "bool"
  | .PARAMETER_INTEGER => "integer"
  | .PARAMETER_DOUBLE => "double"
  | .PARAMETER_STRING => "string"
  | .PARAMETER_BYTE_ARRAY => "byte_array"
  | .PARAMETER_BOOL_ARRAY => "bool_array"
  | .PARAMETER_INTEGER_ARRAY => "integer_array"
  | .PARAMETER_DOUBLE_ARRAY => "double_array"
  | .PARAMETER_STRING_ARRAY => "string_array"

/-- Text of the error raised when a value tagged `actual` is read at a type
tagged `expected`. -/
def ParameterTypeException (expected actual : ParameterType) : String :=
  "expected [" ++ expected.to_string ++ "] got [" ++ actual.to_string ++ "]"

/-- Modelled from the spec: `rcl_interfaces::msg::ParameterDescriptor`, whose
declaration is not in the repository; the two attributes the spec's data model
lists and `make_descriptor` assigns. -/
structure ParameterDescriptor where
  description : String
  additional_constraints : String
  deriving DecidableEq, Repr

/-- A named value as handed back by the node's `get_parameter`
(`rclcpp::Parameter`). -/
structure Parameter where
  name : String
  value : ParameterValue
  deriving DecidableEq, Repr

/-- Modelled from the spec: `Result<T>`, declared in a header of the repository
that is not under src.  "Either a successfully retrieved typed value, or a
failure carrying a textual cause." -/
abbrev Result (T : Type) : Type := Except String T

/-- Modelled from the spec: `Exception(what)`, the failure carrying `what` as
its cause (same missing header as `Result`). -/
def Exception {T : Type} (what : String) : Result T := .error what

/-- Modelled from the spec: `make_unexpected(e)`, the failure carrying the
cause `e` (same missing header as `Result`). -/
def make_unexpected {T : Type} (e : String) : Result T := .error e

/-- The value types `T` the loader can be instantiated at: those that can be
wrapped into a `ParameterValue` (`rclcpp::ParameterValue{v}`) and read back
from one (`ParameterValue::get<T>()`, which raises on a tag mismatch). -/
class ParameterKind (T : Type) where
  /-- The tag values of this type carry. -/
  type : ParameterType
  /-- The constructor `rclcpp::ParameterValue{v}`. -/
  toValue : T → ParameterValue
  /-- The accessor `ParameterValue::get<T>()`. -/
  get : ParameterValue → Except String T
  /-- Wrapping gives a value with this type's tag. -/
  type_toValue : ∀ d : T, (toValue d).get_type = type
  /-- Reading back a wrapped value gives the value. -/
  get_toValue : ∀ d : T, get (toValue d) = .ok d
  /-- A read only succeeds on a value wrapping the result. -/
  get_ok : ∀ (v : ParameterValue) (t : T), get v = .ok t → v = toValue t

instance : ParameterKind Bool where
  type := .PARAMETER_BOOL
  toValue := .bool
  get
    | .bool b => .ok b
    | v => .error (ParameterTypeException .PARAMETER_BOOL v.get_type)
  type_toValue _ := rfl
  get_toValue _ := rfl
  get_ok v t h := by cases v <;> simp_all

instance : ParameterKind Int where
  type := .PARAMETER_INTEGER
  toValue := .integer
  get
    | .integer i => .ok i
    | v => .error (ParameterTypeException .PARAMETER_INTEGER v.get_type)
  type_toValue _ := rfl
  get_toValue _ := rfl
  get_ok v t h := by cases v <;> simp_all

instance : ParameterKind Double where
  type := .PARAMETER_DOUBLE
  toValue := .double
  get
    | .double x => .ok x
    | v => .error (ParameterTypeException .PARAMETER_DOUBLE v.get_type)
  type_toValue _ := rfl
  get_toValue _ := rfl
  get_ok v t h := by cases v <;> simp_all

instance : ParameterKind String where
  type := .PARAMETER_STRING
  toValue := .string
  get
    | .string s => .ok s
    | v => .error (ParameterTypeException .PARAMETER_STRING v.get_type)
  type_toValue _ := rfl
  get_toValue _ := rfl
  get_ok v t h := by cases v <;> simp_all

instance : ParameterKind (List (Fin 256)) where
  type := .PARAMETER_BYTE_ARRAY
  toValue := .byte_array
  get
    | .byte_array a => .ok a
    | v => .error (ParameterTypeException .PARAMETER_BYTE_ARRAY v.get_type)
  type_toValue _ := rfl
  get_toValue _ := rfl
  get_ok v t h := by cases v <;> simp_all

instance : ParameterKind (List Bool) where
  type := .PARAMETER_BOOL_ARRAY
  toValue := .bool_array
  get
    | .bool_array a => .ok a
    | v => .error (ParameterTypeException .PARAMETER_BOOL_ARRAY v.get_type)
  type_toValue _ := rfl
  get_toValue _ := rfl
  get_ok v t h := by cases v <;> simp_all

instance : ParameterKind (List Int) where
  type := .PARAMETER_INTEGER_ARRAY
  toValue := .integer_array
  get
    | .integer_array a => .ok a
    | v => .error (ParameterTypeException .PARAMETER_INTEGER_ARRAY v.get_type)
  type_toValue _ := rfl
  get_toValue _ := rfl
  get_ok v t h := by cases v <;> simp_all

instance : ParameterKind (List Double) where
  type := .PARAMETER_DOUBLE_ARRAY
  toValue := .double_array
  get
    | .double_array a => .ok a
    | v => .error (ParameterTypeException .PARAMETER_DOUBLE_ARRAY v.get_type)
  type_toValue _ := rfl
  get_toValue _ := rfl
  get_ok v t h := by cases v <;> simp_all

instance : ParameterKind (List String) where
  type := .PARAMETER_STRING_ARRAY
  toValue := .string_array
  get
    | .string_array a => .ok a
    | v => .error (ParameterTypeException .PARAMETER_STRING_ARRAY v.get_type)
  type_toValue _ := rfl
  get_toValue _ := rfl
  get_ok v t h := by cases v <;> simp_all

/-- The accessor `Parameter::get_value<T>()`: the stored value read at `T`. -/
def Parameter.get_value {T : Type} [ParameterKind T] (p : Parameter) : Except String T :=
  ParameterKind.get p.value

/-! ## The host node -/

/-- The three operations of the host node the loader calls, over a store
state `σ`.  `has_parameter` and `get_parameter` are queries; `declare_parameter`
returns the value the store holds for the name afterwards, or raises, and in
both cases yields the store state it leaves behind. -/
structure Node (σ : Type) where
  has_parameter : σ → String → Bool
  declare_parameter :
    σ → String → ParameterValue → ParameterDescriptor → Except String ParameterValue × σ
  get_parameter : σ → String → Except String Parameter

/-- One call made on the host node. -/
inductive Call where
  | has_parameter (name : String)
  | declare_parameter (name : String) (value : ParameterValue)
      (descriptor : ParameterDescriptor)
  | get_parameter (name : String)
  deriving DecidableEq, Repr

/-- Whether a call is a `declare_parameter`. -/
def Call.isDeclare : Call → Bool
  | .declare_parameter _ _ _ => true
  | _ => false

/-- Whether a call is a `get_parameter`. -/
def Call.isGet : Call → Bool
  | .get_parameter _ => true
  | _ => false

/-- What running a piece of the loader yields: its return value, the store
state it leaves, and the calls it made on the node, oldest first. -/
structure Outcome (σ α : Type) where
  result : α
  store : σ
  calls : List Call

/-! ## The loader -/

/-- The class `ParameterLoader`: it holds the host node. -/
structure ParameterLoader (σ : Type) where
  node_ : Node σ

namespace ParameterLoader

variable {σ T : Type}

/-- `ParameterLoader::make_descriptor`. -/
def make_descriptor (_self : ParameterLoader σ) (description constraints : String) :
    ParameterDescriptor :=
  { description := description, additional_constraints := constraints }

/-- `ParameterLoader::declare_parameter<T>`: one `declare_parameter` call on
the node followed by `.get<T>()` on what it returned, any exception of either
turned into a failure. -/
def declare_parameter [ParameterKind T] (self : ParameterLoader σ) (s : σ) (name : String)
    (default_value : T) (description : String := "") (constraints : String := "") :
    Outcome σ (Result T) :=
  let value := ParameterKind.toValue default_value
  let descriptor := self.make_descriptor description constraints
  let calls := [Call.declare_parameter name value descriptor]
  match self.node_.declare_parameter s name value descriptor with
  | (.error what, s') => ⟨Exception what, s', calls⟩
  | (.ok declared, s') =>
    match (ParameterKind.get declared : Except String T) with
    | .error what => ⟨Exception what, s', calls⟩
    | .ok v => ⟨.ok v, s', calls⟩

/-- `ParameterLoader::get_parameter<T>`: one `get_parameter` call on the node
followed by `.get_value<T>()`, any exception of either turned into a
failure. -/
def get_parameter [ParameterKind T] (self : ParameterLoader σ) (s : σ) (name : String) :
    Outcome σ (Result T) :=
  let calls := [Call.get_parameter name]
  match self.node_.get_parameter s name with
  | .error what => ⟨Exception what, s, calls⟩
  | .ok parameter =>
    match (parameter.get_value : Except String T) with
    | .error what => ⟨Exception what, s, calls⟩
    | .ok v => ⟨.ok v, s, calls⟩

/-- `ParameterLoader::operator()`, the spec's `load`. -/
def load [ParameterKind T] (self : ParameterLoader σ) (s : σ) (name : String)
    (default_value : T) (description : String := "") (constraints : String := "") :
    Outcome σ (Result T) :=
  if !self.node_.has_parameter s name then
    let declared := self.declare_parameter s name default_value description constraints
    match declared.result with
    | .error e =>
      ⟨make_unexpected e, declared.store, Call.has_parameter name :: declared.calls⟩
    | .ok _ =>
      let got : Outcome σ (Result T) := self.get_parameter declared.store name
      ⟨got.result, got.store, Call.has_parameter name :: (declared.calls ++ got.calls)⟩
  else
    let got : Outcome σ (Result T) := self.get_parameter s name
    ⟨got.result, got.store, Call.has_parameter name :: got.calls⟩

end ParameterLoader

/-! ## A key/value store to run the loader on -/

/-- Modelled from the spec: the external parameter store, "a black-box
key/value store keyed by string name, holding typed values".  Its state is the
list of declared parameters, oldest first.  What the store does with a
declaration (keep the value, replace it by a pre-loaded one, or reject it with
a message) is its `policy`.  A rejected declaration registers nothing. -/
def keyValueNode
    (policy : String → ParameterValue → ParameterDescriptor → Except String ParameterValue) :
    Node (List Parameter) where
  has_parameter s name := s.any (fun p => p.name == name)
  declare_parameter s name value descriptor :=
    if s.any (fun p => p.name == name) then
      (.error ("parameter '" ++ name ++ "' has already been declared"), s)
    else
      match policy name value descriptor with
      | .error what => (.error what, s)
      | .ok stored => (.ok stored, s ++ [⟨name, stored⟩])
  get_parameter s name :=
    match s.find? (fun p => p.name == name) with
    | some p => .ok p
    | none => .error ("parameter '" ++ name ++ "' is not declared")

/-- The policy of a store that keeps every declared value as given. -/
def keepAsGiven : String → ParameterValue → ParameterDescriptor → Except String ParameterValue :=
  fun _ value _ => .ok value

/-- The policy of a store that replaces every declared value by `stored`, as
when the name was pre-populated from a configuration source. -/
def overrideWith (stored : ParameterValue) :
    String → ParameterValue → ParameterDescriptor → Except String ParameterValue :=
  fun _ _ _ => .ok stored

/-- A store whose `get_parameter` always raises `what`, and whose declarations
all succeed; its state is the list of declared names. -/
def unreadableNode (what : String) : Node (List String) where
  has_parameter s name := s.contains name
  declare_parameter s name value _ := (.ok value, s ++ [name])
  get_parameter _ _ := .error what

end BioIk

namespace BioIk

variable {σ T : Type}

/-! ## How a call to `load` unfolds -/

/-- The loader's `get_parameter` never changes the store. -/
theorem get_parameter_store [ParameterKind T] (L : ParameterLoader σ) (s : σ) (name : String) :
    (L.get_parameter s name : Outcome σ (Result T)).store = s := by
  unfold ParameterLoader.get_parameter
  cases L.node_.get_parameter s name with
  | error what => rfl
  | ok p =>
    cases hv : (p.get_value : Except String T) with
    | error what => simp only [hv]
    | ok v => simp only [hv]

/-- The loader's `get_parameter` makes exactly one call on the node. -/
theorem get_parameter_calls [ParameterKind T] (L : ParameterLoader σ) (s : σ) (name : String) :
    (L.get_parameter s name : Outcome σ (Result T)).calls = [Call.get_parameter name] := by
  unfold ParameterLoader.get_parameter
  cases L.node_.get_parameter s name with
  | error what => rfl
  | ok p =>
    cases hv : (p.get_value : Except String T) with
    | error what => simp only [hv]
    | ok v => simp only [hv]

/-- The result of the loader's `get_parameter`: the node's answer read at `T`. -/
theorem get_parameter_result [ParameterKind T] (L : ParameterLoader σ) (s : σ) (name : String) :
    (L.get_parameter s name : Outcome σ (Result T)).result =
      (L.node_.get_parameter s name >>= fun p => (p.get_value : Except String T)) := by
  unfold ParameterLoader.get_parameter
  cases L.node_.get_parameter s name with
  | error what => rfl
  | ok p =>
    show _ = (p.get_value : Except String T)
    cases hv : (p.get_value : Except String T) with
    | error what => simp only [hv]; rfl
    | ok v => simp only [hv]

/-- The loader's `declare_parameter` leaves the store as the node's
`declare_parameter` left it. -/
theorem declare_parameter_store [ParameterKind T] (L : ParameterLoader σ) (s : σ)
    (name : String) (d : T) (description constraints : String) :
    (L.declare_parameter s name d description constraints).store =
      (L.node_.declare_parameter s name (ParameterKind.toValue d)
        (L.make_descriptor description constraints)).2 := by
  unfold ParameterLoader.declare_parameter
  rcases h : L.node_.declare_parameter s name (ParameterKind.toValue d)
      (L.make_descriptor description constraints) with ⟨r, s'⟩
  cases r with
  | error what => simp only [h]
  | ok declared =>
    cases hv : (ParameterKind.get declared : Except String T) with
    | error what => simp only [h, hv]
    | ok v => simp only [h, hv]

/-- The loader's `declare_parameter` makes exactly one call on the node. -/
theorem declare_parameter_calls [ParameterKind T] (L : ParameterLoader σ) (s : σ)
    (name : String) (d : T) (description constraints : String) :
    (L.declare_parameter s name d description constraints).calls =
      [Call.declare_parameter name (ParameterKind.toValue d)
        (L.make_descriptor description constraints)] := by
  unfold ParameterLoader.declare_parameter
  rcases h : L.node_.declare_parameter s name (ParameterKind.toValue d)
      (L.make_descriptor description constraints) with ⟨r, s'⟩
  cases r with
  | error what => simp only [h]
  | ok declared =>
    cases hv : (ParameterKind.get declared : Except String T) with
    | error what => simp only [h, hv]
    | ok v => simp only [h, hv]

/-- The result of the loader's `declare_parameter`: what the node returned,
read at `T`. -/
theorem declare_parameter_result [ParameterKind T] (L : ParameterLoader σ) (s : σ)
    (name : String) (d : T) (description constraints : String) :
    (L.declare_parameter s name d description constraints).result =
      ((L.node_.declare_parameter s name (ParameterKind.toValue d)
        (L.make_descriptor description constraints)).1 >>=
          fun declared => (ParameterKind.get declared : Except String T)) := by
  unfold ParameterLoader.declare_parameter
  rcases h : L.node_.declare_parameter s name (ParameterKind.toValue d)
      (L.make_descriptor description constraints) with ⟨r, s'⟩
  cases r with
  | error what => simp only [h]; rfl
  | ok declared =>
    show _ = (ParameterKind.get declared : Except String T)
    cases hv : (ParameterKind.get declared : Except String T) with
    | error what => simp only [h, hv]; rfl
    | ok v => simp only [h, hv]

/-- When the name is present, `load` is one presence query and one read. -/
theorem load_of_present [ParameterKind T] (L : ParameterLoader σ) (s : σ) (name : String)
    (d : T) (description constraints : String)
    (hpresent : L.node_.has_parameter s name = true) :
    L.load s name d description constraints =
      ⟨(L.get_parameter s name : Outcome σ (Result T)).result, s,
        [Call.has_parameter name, Call.get_parameter name]⟩ := by
  unfold ParameterLoader.load
  simp only [hpresent, Bool.not_true, Bool.false_eq_true, if_false,
    get_parameter_store, get_parameter_calls]

/-- When the name is absent and the declare step fails with `e`, `load` is one
presence query and one declaration, and fails with `e`. -/
theorem load_of_declare_error [ParameterKind T] (L : ParameterLoader σ) (s : σ)
    (name : String) (d : T) (description constraints : String) (e : String)
    (habsent : L.node_.has_parameter s name = false)
    (hstep : (L.declare_parameter s name d description constraints).result = .error e) :
    L.load s name d description constraints =
      ⟨.error e, (L.node_.declare_parameter s name (ParameterKind.toValue d)
          (L.make_descriptor description constraints)).2,
        [Call.has_parameter name,
          Call.declare_parameter name (ParameterKind.toValue d)
            (L.make_descriptor description constraints)]⟩ := by
  unfold ParameterLoader.load
  simp only [habsent, Bool.not_false, if_true, hstep, declare_parameter_store,
    declare_parameter_calls, make_unexpected]

/-- When the name is absent and the declare step succeeds, `load` is one
presence query, one declaration and one read on the store the declaration
left. -/
theorem load_of_declare_ok [ParameterKind T] (L : ParameterLoader σ) (s : σ)
    (name : String) (d : T) (description constraints : String) (v : T)
    (habsent : L.node_.has_parameter s name = false)
    (hstep : (L.declare_parameter s name d description constraints).result = .ok v) :
    L.load s name d description constraints =
      ⟨(L.get_parameter (L.node_.declare_parameter s name (ParameterKind.toValue d)
            (L.make_descriptor description constraints)).2 name : Outcome σ (Result T)).result,
        (L.node_.declare_parameter s name (ParameterKind.toValue d)
          (L.make_descriptor description constraints)).2,
        [Call.has_parameter name,
          Call.declare_parameter name (ParameterKind.toValue d)
            (L.make_descriptor description constraints),
          Call.get_parameter name]⟩ := by
  unfold ParameterLoader.load
  simp only [habsent, Bool.not_false, if_true, hstep, declare_parameter_store,
    declare_parameter_calls, get_parameter_store, get_parameter_calls, List.singleton_append]

/-- When the name is absent, `load` leaves the store as the node's
`declare_parameter` left it, whatever the outcome. -/
theorem load_of_absent_store [ParameterKind T] (L : ParameterLoader σ) (s : σ)
    (name : String) (d : T) (description constraints : String)
    (habsent : L.node_.has_parameter s name = false) :
    (L.load s name d description constraints).store =
      (L.node_.declare_parameter s name (ParameterKind.toValue d)
        (L.make_descriptor description constraints)).2 := by
  cases hstep : (L.declare_parameter s name d description constraints).result with
  | error e => rw [load_of_declare_error L s name d description constraints e habsent hstep]
  | ok v => rw [load_of_declare_ok L s name d description constraints v habsent hstep]

/-- When the name is absent, the declarations `load` makes are exactly one:
that of the name, with the wrapped default and the descriptor built from the
two strings. -/
theorem load_of_absent_declares [ParameterKind T] (L : ParameterLoader σ) (s : σ)
    (name : String) (d : T) (description constraints : String)
    (habsent : L.node_.has_parameter s name = false) :
    (L.load s name d description constraints).calls.filter Call.isDeclare =
      [Call.declare_parameter name (ParameterKind.toValue d)
        (L.make_descriptor description constraints)] := by
  cases hstep : (L.declare_parameter s name d description constraints).result with
  | error e =>
    rw [load_of_declare_error L s name d description constraints e habsent hstep]
    rfl
  | ok v =>
    rw [load_of_declare_ok L s name d description constraints v habsent hstep]
    rfl

/-- A successful declare step means the node's `declare_parameter` returned a
value, one that reads back at `T`. -/
theorem declare_parameter_ok_inv [ParameterKind T] (L : ParameterLoader σ) (s : σ)
    (name : String) (d : T) (description constraints : String) (v : T)
    (hstep : (L.declare_parameter s name d description constraints).result = .ok v) :
    ∃ declared s', L.node_.declare_parameter s name (ParameterKind.toValue d)
        (L.make_descriptor description constraints) = (.ok declared, s') ∧
      (ParameterKind.get declared : Except String T) = .ok v := by
  rw [declare_parameter_result] at hstep
  rcases h : L.node_.declare_parameter s name (ParameterKind.toValue d)
      (L.make_descriptor description constraints) with ⟨r, s'⟩
  rw [h] at hstep
  cases r with
  | error what => cases hstep
  | ok declared => exact ⟨declared, s', rfl, hstep⟩

/-- A successful read means the node's `get_parameter` returned a parameter
whose value wraps the result. -/
theorem get_parameter_ok_inv [ParameterKind T] (L : ParameterLoader σ) (s : σ)
    (name : String) (v : T)
    (hread : (L.get_parameter s name : Outcome σ (Result T)).result = .ok v) :
    ∃ p, L.node_.get_parameter s name = .ok p ∧ p.value = ParameterKind.toValue v := by
  rw [get_parameter_result] at hread
  cases h : L.node_.get_parameter s name with
  | error what => rw [h] at hread; cases hread
  | ok p =>
    rw [h] at hread
    exact ⟨p, rfl, ParameterKind.get_ok p.value v hread⟩

/-! ## The key/value store keeps the store contract -/

/-- In the key/value store, a successful declaration registers the name. -/
theorem keyValueNode_declare_registers
    (policy : String → ParameterValue → ParameterDescriptor → Except String ParameterValue)
    (s s' : List Parameter) (name : String) (value declared : ParameterValue)
    (descriptor : ParameterDescriptor)
    (h : (keyValueNode policy).declare_parameter s name value descriptor = (.ok declared, s')) :
    (keyValueNode policy).has_parameter s' name = true := by
  simp only [keyValueNode] at h ⊢
  split at h
  · cases h
  · split at h
    · cases h
    · cases h
      simp

/-! ## The claims -/

/-- C1: for every supported value type `T`, name `N` and default `d`: if the
store does not contain `N` and the store's declare keeps the given value
unchanged (it returns it, and a later get hands it back), then `load N d`
declares `N` with that value and returns success with `d`. -/
theorem load_absent_returns_default [ParameterKind T] (L : ParameterLoader σ) (s s' : σ)
    (N : String) (d : T) (description constraints : String) (p : Parameter)
    (habsent : L.node_.has_parameter s N = false)
    (hdeclare : L.node_.declare_parameter s N (ParameterKind.toValue d)
      (L.make_descriptor description constraints) = (.ok (ParameterKind.toValue d), s'))
    (hget : L.node_.get_parameter s' N = .ok p)
    (hstored : p.value = ParameterKind.toValue d) :
    (L.load s N d description constraints).result = .ok d ∧
    (L.load s N d description constraints).store = s' ∧
    (L.load s N d description constraints).calls =
      [Call.has_parameter N,
        Call.declare_parameter N (ParameterKind.toValue d)
          (L.make_descriptor description constraints),
        Call.get_parameter N] := by
  have hstep : (L.declare_parameter s N d description constraints).result = .ok d := by
    rw [declare_parameter_result, hdeclare]
    exact ParameterKind.get_toValue d
  have hread : (L.get_parameter s' N : Outcome σ (Result T)).result = .ok d := by
    rw [get_parameter_result, hget]
    show (ParameterKind.get p.value : Except String T) = .ok d
    rw [hstored]
    exact ParameterKind.get_toValue d
  rw [load_of_declare_ok L s N d description constraints d habsent hstep, hdeclare]
  exact ⟨hread, rfl, rfl⟩

/-- Witness for C1: on an empty key/value store that keeps values as given,
`load "max_iterations" 100` declares the name and returns `100`. -/
theorem load_absent_returns_default_witness :
    ((ParameterLoader.mk (keyValueNode keepAsGiven)).load [] "max_iterations" (100 : Int)
        "max solver iterations" "must be positive").result = .ok 100 ∧
    ((ParameterLoader.mk (keyValueNode keepAsGiven)).load [] "max_iterations" (100 : Int)
        "max solver iterations" "must be positive").store =
      [⟨"max_iterations", .integer 100⟩] ∧
    ((ParameterLoader.mk (keyValueNode keepAsGiven)).load [] "max_iterations" (100 : Int)
        "max solver iterations" "must be positive").calls =
      [Call.has_parameter "max_iterations",
        Call.declare_parameter "max_iterations" (.integer 100)
          ⟨"max solver iterations", "must be positive"⟩,
        Call.get_parameter "max_iterations"] :=
  load_absent_returns_default (ParameterLoader.mk (keyValueNode keepAsGiven)) []
    [⟨"max_iterations", .integer 100⟩] "max_iterations" (100 : Int)
    "max solver iterations" "must be positive" ⟨"max_iterations", .integer 100⟩ rfl rfl rfl rfl

/-- C2: for every name `N` the store already holds with a value `v` of type
`T`, and every default `d`: `load N d` makes no declare call, leaves the store
as it was, and returns success with `v`, whatever `d` is. -/
theorem load_present_returns_stored [ParameterKind T] (L : ParameterLoader σ) (s : σ)
    (N : String) (v d : T) (description constraints : String) (p : Parameter)
    (hpresent : L.node_.has_parameter s N = true)
    (hget : L.node_.get_parameter s N = .ok p)
    (hstored : p.value = ParameterKind.toValue v) :
    (L.load s N d description constraints).result = .ok v ∧
    (∀ c ∈ (L.load s N d description constraints).calls, c.isDeclare = false) ∧
    (L.load s N d description constraints).store = s := by
  have hread : (L.get_parameter s N : Outcome σ (Result T)).result = .ok v := by
    rw [get_parameter_result, hget]
    show (ParameterKind.get p.value : Except String T) = .ok v
    rw [hstored]
    exact ParameterKind.get_toValue v
  rw [load_of_present L s N d description constraints hpresent]
  refine ⟨hread, ?_, rfl⟩
  intro c hc
  simp only [List.mem_cons, List.mem_singleton, List.not_mem_nil, or_false] at hc
  rcases hc with rfl | rfl <;> rfl

/-- Witness for C2: the store holds "timeout" = 5.0; `load "timeout" 1.0`
returns 5.0, which is not the default. -/
theorem load_present_returns_stored_witness :
    Double.five ≠ Double.one ∧
    ((ParameterLoader.mk (keyValueNode keepAsGiven)).load
        [⟨"timeout", .double Double.five⟩] "timeout" Double.one).result = .ok Double.five ∧
    (∀ c ∈ ((ParameterLoader.mk (keyValueNode keepAsGiven)).load
        [⟨"timeout", .double Double.five⟩] "timeout" Double.one).calls, c.isDeclare = false) ∧
    ((ParameterLoader.mk (keyValueNode keepAsGiven)).load
        [⟨"timeout", .double Double.five⟩] "timeout" Double.one).store =
      [⟨"timeout", .double Double.five⟩] :=
  ⟨by decide,
    load_present_returns_stored (ParameterLoader.mk (keyValueNode keepAsGiven))
      [⟨"timeout", .double Double.five⟩] "timeout" Double.five Double.one "" ""
      ⟨"timeout", .double Double.five⟩ rfl rfl rfl⟩

/-- C4: for every name `N`: if `load` reaches the retrieval step, on the store
`sr` (either `N` was present and `sr` is the initial store, or `N` was absent
and was declared successfully, leaving `sr`), and the store's get raises an
error with message `m` there (the lookup itself or the read of the value at
`T`), then `load` returns the failure with message `m` and makes exactly one
get call. -/
theorem load_get_raises [ParameterKind T] (L : ParameterLoader σ) (s sr : σ)
    (N : String) (d : T) (description constraints m : String)
    (hreach : (L.node_.has_parameter s N = true ∧ sr = s) ∨
      (L.node_.has_parameter s N = false ∧ ∃ (declared : ParameterValue) (v : T),
        L.node_.declare_parameter s N (ParameterKind.toValue d)
          (L.make_descriptor description constraints) = (.ok declared, sr) ∧
        (ParameterKind.get declared : Except String T) = .ok v))
    (hraise : L.node_.get_parameter sr N = .error m ∨
      ∃ p, L.node_.get_parameter sr N = .ok p ∧ (p.get_value : Except String T) = .error m) :
    (L.load s N d description constraints).result = .error m ∧
    (L.load s N d description constraints).calls.filter Call.isGet = [Call.get_parameter N] := by
  have hread : (L.get_parameter sr N : Outcome σ (Result T)).result = .error m := by
    rw [get_parameter_result]
    rcases hraise with h | ⟨p, h, hp⟩
    · rw [h]; rfl
    · rw [h]; exact hp
  rcases hreach with ⟨hpresent, rfl⟩ | ⟨habsent, declared, v, hdeclare, hv⟩
  · rw [load_of_present L sr N d description constraints hpresent]
    exact ⟨hread, rfl⟩
  · have hstep : (L.declare_parameter s N d description constraints).result = .ok v := by
      rw [declare_parameter_result, hdeclare]
      exact hv
    rw [load_of_declare_ok L s N d description constraints v habsent hstep, hdeclare]
    exact ⟨hread, rfl⟩

/-- Witness for C4: a store whose get always raises "type mismatch"; the name
is absent, is declared successfully, and the single get fails. -/
theorem load_get_raises_witness :
    ((ParameterLoader.mk (unreadableNode "type mismatch")).load [] "timeout"
        Double.one).result = .error "type mismatch" ∧
    ((ParameterLoader.mk (unreadableNode "type mismatch")).load [] "timeout"
        Double.one).calls.filter Call.isGet = [Call.get_parameter "timeout"] :=
  load_get_raises (ParameterLoader.mk (unreadableNode "type mismatch")) [] ["timeout"]
    "timeout" Double.one "" "" "type mismatch"
    (Or.inr ⟨rfl, .double Double.one, Double.one, rfl, rfl⟩) (Or.inl rfl)

/-- C6: for every name `N` and defaults `d1`, `d2` of one type: starting from
an empty store whose declare keeps the value unchanged, `load N d1` returns
success with `d1`, and a following `load N d2` returns success with `d1`. -/
theorem load_second_default_ignored [ParameterKind T] (L : ParameterLoader σ) (s s' : σ)
    (N : String) (d1 d2 : T) (description1 constraints1 description2 constraints2 : String)
    (p : Parameter)
    (hempty : ∀ n, L.node_.has_parameter s n = false)
    (hdeclare : L.node_.declare_parameter s N (ParameterKind.toValue d1)
      (L.make_descriptor description1 constraints1) = (.ok (ParameterKind.toValue d1), s'))
    (hregistered : L.node_.has_parameter s' N = true)
    (hget : L.node_.get_parameter s' N = .ok p)
    (hstored : p.value = ParameterKind.toValue d1) :
    (L.load s N d1 description1 constraints1).result = .ok d1 ∧
    (L.load (L.load s N d1 description1 constraints1).store N d2
      description2 constraints2).result = .ok d1 := by
  have hstep : (L.declare_parameter s N d1 description1 constraints1).result = .ok d1 := by
    rw [declare_parameter_result, hdeclare]
    exact ParameterKind.get_toValue d1
  have hread : (L.get_parameter s' N : Outcome σ (Result T)).result = .ok d1 := by
    rw [get_parameter_result, hget]
    show (ParameterKind.get p.value : Except String T) = .ok d1
    rw [hstored]
    exact ParameterKind.get_toValue d1
  rw [load_of_declare_ok L s N d1 description1 constraints1 d1 (hempty N) hstep, hdeclare]
  simp only
  rw [load_of_present L s' N d2 description2 constraints2 hregistered]
  exact ⟨hread, hread⟩

/-- Witness for C6: `N` = "max_iterations", `d1` = 100, `d2` = 999. -/
theorem load_second_default_ignored_witness :
    (100 : Int) ≠ 999 ∧
    ((ParameterLoader.mk (keyValueNode keepAsGiven)).load [] "max_iterations" (100 : Int)
      "max solver iterations" "must be positive").result = .ok 100 ∧
    ((ParameterLoader.mk (keyValueNode keepAsGiven)).load
      ((ParameterLoader.mk (keyValueNode keepAsGiven)).load [] "max_iterations" (100 : Int)
        "max solver iterations" "must be positive").store
      "max_iterations" (999 : Int) "" "").result = .ok 100 :=
  ⟨by decide,
    load_second_default_ignored (ParameterLoader.mk (keyValueNode keepAsGiven)) []
      [⟨"max_iterations", .integer 100⟩] "max_iterations" (100 : Int) 999
      "max solver iterations" "must be positive" "" "" ⟨"max_iterations", .integer 100⟩
      (fun _ => rfl) rfl rfl rfl rfl⟩

/-- C7: for every store state (of a store where a successful declare of `N`
registers `N`), name `N`, type `T` and default `d`: if `load N d` returns
success with `t`, then afterwards the store contains `N`, and the value it
holds for `N` carries the tag of `T`; it is the wrapped `t`. -/
theorem load_ok_store_holds_typed [ParameterKind T] (L : ParameterLoader σ) (s : σ)
    (N : String) (d t : T) (description constraints : String)
    (hregisters : ∀ declared s', L.node_.declare_parameter s N (ParameterKind.toValue d)
      (L.make_descriptor description constraints) = (.ok declared, s') →
      L.node_.has_parameter s' N = true)
    (hok : (L.load s N d description constraints).result = .ok t) :
    L.node_.has_parameter (L.load s N d description constraints).store N = true ∧
    ∃ p, L.node_.get_parameter (L.load s N d description constraints).store N = .ok p ∧
      p.value.get_type = ParameterKind.type T ∧ p.value = ParameterKind.toValue t := by
  cases hhas : L.node_.has_parameter s N with
  | true =>
    rw [load_of_present L s N d description constraints hhas] at hok ⊢
    simp only at hok ⊢
    obtain ⟨p, hp, hv⟩ := get_parameter_ok_inv L s N t hok
    exact ⟨hhas, p, hp, by rw [hv]; exact ParameterKind.type_toValue t, hv⟩
  | false =>
    cases hstep : (L.declare_parameter s N d description constraints).result with
    | error e =>
      rw [load_of_declare_error L s N d description constraints e hhas hstep] at hok
      cases hok
    | ok v =>
      obtain ⟨declared, s', hdeclare, -⟩ :=
        declare_parameter_ok_inv L s N d description constraints v hstep
      have h1 := load_of_declare_ok L s N d description constraints v hhas hstep
      rw [hdeclare] at h1
      rw [h1] at hok ⊢
      simp only at hok ⊢
      obtain ⟨p, hp, hv⟩ := get_parameter_ok_inv L s' N t hok
      exact ⟨hregisters declared s' hdeclare, p, hp,
        by rw [hv]; exact ParameterKind.type_toValue t, hv⟩

/-- Witness for C7: after `load "timeout" 1.0` on an empty key/value store,
the store holds "timeout" with a value tagged as a double. -/
theorem load_ok_store_holds_typed_witness :
    (keyValueNode keepAsGiven).has_parameter
      ((ParameterLoader.mk (keyValueNode keepAsGiven)).load [] "timeout"
        Double.one "" "").store "timeout" = true ∧
    ∃ p, (keyValueNode keepAsGiven).get_parameter
        ((ParameterLoader.mk (keyValueNode keepAsGiven)).load [] "timeout"
          Double.one "" "").store "timeout" = .ok p ∧
      p.value.get_type = ParameterType.PARAMETER_DOUBLE ∧ p.value = .double Double.one :=
  load_ok_store_holds_typed (ParameterLoader.mk (keyValueNode keepAsGiven)) [] "timeout"
    Double.one Double.one "" ""
    (fun declared s' h =>
      keyValueNode_declare_registers keepAsGiven [] s' "timeout" _ declared _ h)
    (by rfl)

/-- C9: for every name `N` absent from the store and every description and
constraints strings: the one declare call `load` makes on the store carries
exactly the name `N`, the wrapped default, and a descriptor whose description
is the description argument and whose additional_constraints is the
constraints argument; both are the empty string when the caller omits them. -/
theorem load_declare_arguments [ParameterKind T] (L : ParameterLoader σ) (s : σ)
    (N : String) (d : T) (description constraints : String)
    (habsent : L.node_.has_parameter s N = false) :
    (L.load s N d description constraints).calls.filter Call.isDeclare =
      [Call.declare_parameter N (ParameterKind.toValue d)
        { description := description, additional_constraints := constraints }] ∧
    (L.load s N d description constraints).store =
      (L.node_.declare_parameter s N (ParameterKind.toValue d)
        { description := description, additional_constraints := constraints }).2 ∧
    (L.load s N d).calls.filter Call.isDeclare =
      [Call.declare_parameter N (ParameterKind.toValue d)
        { description := "", additional_constraints := "" }] ∧
    (L.load s N d description).calls.filter Call.isDeclare =
      [Call.declare_parameter N (ParameterKind.toValue d)
        { description := description, additional_constraints := "" }] :=
  ⟨load_of_absent_declares L s N d description constraints habsent,
    load_of_absent_store L s N d description constraints habsent,
    load_of_absent_declares L s N d "" "" habsent,
    load_of_absent_declares L s N d description "" habsent⟩

/-- Witness for C9: the declare call of
`load "max_iterations" 100 "max solver iterations" "must be positive"` on an
empty key/value store, and of the same call with both strings omitted. -/
theorem load_declare_arguments_witness :
    ((ParameterLoader.mk (keyValueNode keepAsGiven)).load [] "max_iterations" (100 : Int)
        "max solver iterations" "must be positive").calls.filter Call.isDeclare =
      [Call.declare_parameter "max_iterations" (.integer 100)
        { description := "max solver iterations",
          additional_constraints := "must be positive" }] ∧
    ((ParameterLoader.mk (keyValueNode keepAsGiven)).load [] "max_iterations"
        (100 : Int)).calls.filter Call.isDeclare =
      [Call.declare_parameter "max_iterations" (.integer 100)
        { description := "", additional_constraints := "" }] :=
  ⟨(load_declare_arguments (ParameterLoader.mk (keyValueNode keepAsGiven)) []
      "max_iterations" (100 : Int) "max solver iterations" "must be positive" rfl).1,
    (load_declare_arguments (ParameterLoader.mk (keyValueNode keepAsGiven)) []
      "max_iterations" (100 : Int) "max solver iterations" "must be positive" rfl).2.2.1⟩

/-- C10: the declare step of `load` also reads the value returned by the
store's declare at type `T`, and a failure of that read counts as a declare
failure.  For every name `N` absent from the store: if the store's declare
succeeds, adding an entry for `N`, but returns a value whose read at `T`
raises `what`, then `load` returns the failure with message `what`, makes no
get call, and the store is left holding the new entry for `N`. -/
theorem load_declared_value_mistyped [ParameterKind T] (L : ParameterLoader σ) (s s' : σ)
    (N : String) (d : T) (description constraints what : String) (declared : ParameterValue)
    (habsent : L.node_.has_parameter s N = false)
    (hdeclare : L.node_.declare_parameter s N (ParameterKind.toValue d)
      (L.make_descriptor description constraints) = (.ok declared, s'))
    (hadded : L.node_.has_parameter s' N = true)
    (hmistyped : (ParameterKind.get declared : Except String T) = .error what) :
    (L.load s N d description constraints).result = .error what ∧
    (∀ c ∈ (L.load s N d description constraints).calls, c.isGet = false) ∧
    (L.load s N d description constraints).store = s' ∧
    L.node_.has_parameter (L.load s N d description constraints).store N = true := by
  have hstep : (L.declare_parameter s N d description constraints).result = .error what := by
    rw [declare_parameter_result, hdeclare]
    exact hmistyped
  rw [load_of_declare_error L s N d description constraints what habsent hstep, hdeclare]
  refine ⟨rfl, ?_, rfl, hadded⟩
  intro c hc
  simp only [List.mem_cons, List.mem_singleton, List.not_mem_nil, or_false] at hc
  rcases hc with rfl | rfl <;> rfl

/-- Witness for C10: the store was pre-populated so that "max_iterations" is
declared with the text "many"; loading it as an integer fails in the declare
step, and the entry is there afterwards. -/
theorem load_declared_value_mistyped_witness :
    ((ParameterLoader.mk (keyValueNode (overrideWith (.string "many")))).load []
        "max_iterations" (100 : Int) "" "").result =
      .error "expected [integer] got [string]" ∧
    (∀ c ∈ ((ParameterLoader.mk (keyValueNode (overrideWith (.string "many")))).load []
        "max_iterations" (100 : Int) "" "").calls, c.isGet = false) ∧
    ((ParameterLoader.mk (keyValueNode (overrideWith (.string "many")))).load []
        "max_iterations" (100 : Int) "" "").store = [⟨"max_iterations", .string "many"⟩] ∧
    (keyValueNode (overrideWith (.string "many"))).has_parameter
      ((ParameterLoader.mk (keyValueNode (overrideWith (.string "many")))).load []
        "max_iterations" (100 : Int) "" "").store "max_iterations" = true :=
  load_declared_value_mistyped (ParameterLoader.mk (keyValueNode (overrideWith (.string "many"))))
    [] [⟨"max_iterations", .string "many"⟩] "max_iterations" (100 : Int) "" ""
    "expected [integer] got [string]" (.string "many") rfl rfl rfl rfl

end BioIk
